import Mathlib

/-!
Shallow embedding of the scanmem benchmark harness (`src/bin/benchmark.rs`)
and the synthetic workload generator (`src/bin/synthetic_load.rs`).

Durations and f64 quantities are modelled over ℚ (the concrete inputs of
every claim are small integers, on which f64 arithmetic is exact); `f64::sqrt`
is represented by `Real.sqrt` in theorem statements.  Fallible operations
(Rust `Result`, `unwrap` panics, out-of-bounds indexing) are modelled with
`Option`/`Except`.  Loops whose termination is in question are modelled with
explicit fuel: a `none`/`false` result for *every* fuel witnesses that the
loop never exits.
-/

namespace ScanmemBench

/-- Model of `compute_median` (benchmark.rs lines 234-238): collect, sort
ascending (the source sorts by `total_cmp`, the usual ascending order; any
ascending sort computes the same list over ℚ), and index at `len / 2`.
Indexing an empty vector panics in Rust; that is the `none` case here. -/
def computeMedian (values : List ℚ) : Option ℚ :=
  let data := values.insertionSort (· ≤ ·)
  data.get? (data.length / 2)

/-- Model of the `reduce` in `compute_standard_deviation` (benchmark.rs line
243): `data.into_iter().reduce(|acc, e| acc + (e - mean))`.  Rust's `reduce`
seeds the accumulator with the *first element itself* (not centered) and
returns `None` on an empty iterator, which the source then `unwrap`s. -/
def computeStandardDeviationSum (values : List ℚ) (mean : ℚ) : Option ℚ :=
  match values with
  | [] => none
  | x :: xs => some (xs.foldl (fun acc e => acc + (e - mean)) x)

/-- Model of `compute_standard_deviation` (benchmark.rs lines 240-245) up to
the final `f64::sqrt`: it returns `1.0 / len * sum.powi(2)`, the value the
source passes to `f64::sqrt`.  Theorems apply `Real.sqrt` to this value. -/
def computeStandardDeviationSq (values : List ℚ) (mean : ℚ) : Option ℚ :=
  (computeStandardDeviationSum values mean).map
    (fun sum => 1 / (values.length : ℚ) * sum ^ 2)

/-- Modelled from the spec: the population variance `(1/n) * Σ (x_i − mean)^2`,
written from the spec's words for `stddev` ("the correct population standard
deviation, sqrt((1/n) * Σ (x_i − mean)^2)"), for refinement comparison with
`computeStandardDeviationSq` from the source. -/
def specPopulationVariance (values : List ℚ) (mean : ℚ) : ℚ :=
  1 / (values.length : ℚ) * (values.map (fun x => (x - mean) ^ 2)).sum

/-- Model of `Iterator::max_by` as used on the duration list (benchmark.rs
line 282): `none` on an empty list, otherwise the maximum (`total_cmp` is the
usual total order on our ℚ model). -/
def listMaxBy (values : List ℚ) : Option ℚ :=
  match values with
  | [] => none
  | x :: xs => some (xs.foldl max x)

/-- Model of `Iterator::min_by` (benchmark.rs line 283). -/
def listMinBy (values : List ℚ) : Option ℚ :=
  match values with
  | [] => none
  | x :: xs => some (xs.foldl min x)

/-- Aggregates computed in `main` (benchmark.rs lines 282-286), in source
order.  `standardDeviationSq` is the value passed to `f64::sqrt`. -/
structure BenchmarkAggregates where
  max : ℚ
  min : ℚ
  mean : ℚ
  standardDeviationSq : ℚ
  median : ℚ
  deriving Repr, DecidableEq

/-- Model of the aggregate-computation block of `main` (benchmark.rs lines
281-286).  Each `unwrap` of a `None` (empty duration list) and each
out-of-bounds index is a Rust panic, modelled as `none`: the whole run
aborts.  The source runs this block unconditionally after every scenario,
successful or not. -/
def mainComputeAggregates (times : List ℚ) : Option BenchmarkAggregates := do
  let mx ← listMaxBy times
  let mn ← listMinBy times
  let mean := times.sum / (times.length : ℚ)
  let sdSq ← computeStandardDeviationSq times mean
  let med ← computeMedian times
  pure ⟨mx, mn, mean, sdSq, med⟩

/-- Model of `BenchmarkTiming` (benchmark.rs lines 48-53).  The `Default`
value (used by `main` when a scenario fails) has an empty duration list. -/
structure BenchmarkTiming where
  setupTime : ℚ
  benchmarkTimes : List ℚ
  totalTime : ℚ
  deriving Repr, DecidableEq

/-- Model of the aggregate step of `main`'s sweep-loop body (benchmark.rs
lines 274-286): on scenario failure (`Err`) the timing keeps its `Default`
value — an empty duration list — after which the aggregate block runs
unconditionally. -/
def mainLoopAggregates (scenario : Option BenchmarkTiming) : Option BenchmarkAggregates :=
  let timing := scenario.getD ⟨0, [], 0⟩
  mainComputeAggregates timing.benchmarkTimes

/-- Model of the size advance at the bottom of `main`'s sweep loop
(benchmark.rs lines 291-292): `step_size += stepbytes` then
`step_size = ((step_size as f64) * stepfactor) as u64`.  The `as u64` cast
truncates a nonnegative f64 toward zero (and saturates a negative one at 0),
which `Int.floor` followed by `Int.toNat` reproduces; at the small integer
sizes of the claims the f64 arithmetic is exact, so ℚ is faithful. -/
def nextStepSize (stepBytes : ℕ) (stepFactor : ℚ) (size : ℕ) : ℕ :=
  (((size + stepBytes : ℕ) : ℚ) * stepFactor).floor.toNat

/-- Model of `main`'s sweep loop (benchmark.rs lines 267-293):
`while step_size >= minbytes && step_size <= maxbytes` run one scenario at
the current size, then advance with `nextStepSize`.  The source performs no
validation of the step parameters before entering the loop and has no
`ConfigError` path, so neither does this model.  Fuel-indexed: the result is
the list of sizes at which a scenario was run, paired with `true` when the
loop exited (guard became false) and `false` when fuel ran out with the loop
still running; a `false` for every fuel witnesses non-termination. -/
def sweepVisit (minB maxB stepB : ℕ) (f : ℚ) : ℕ → ℕ → List ℕ × Bool
  | 0, _ => ([], false)
  | fuel + 1, s =>
    if minB ≤ s ∧ s ≤ maxB then
      let r := sweepVisit minB maxB stepB f fuel (nextStepSize stepB f s)
      (s :: r.1, r.2)
    else ([], true)

/-- Model of `ChildProcess::read_until_line` (benchmark.rs lines 115-126).
The child's stdout is a list of available lines (newlines stripped) followed
by end-of-stream.  Each pass of the `loop` calls `read_line` on a fresh
buffer: on an available line it yields the line with its `\n`; at
end-of-stream Rust's `read_line` returns `Ok(0)` leaving the buffer empty —
it does *not* return `Err` — so the `map_err(..)?` never fires there and the
loop runs again on the same exhausted stream.  The buffer is compared for
exact equality with `sentinel ++ "\n"`.  Fuel-indexed: `some` carries the
source's `Result` (together with the unread rest of the stream) when the
function returned within fuel; `none` for every fuel witnesses that it never
returns. -/
def readUntilLine : ℕ → List String → String → Option (Except String Unit × List String)
  | 0, _, _ => none
  | fuel + 1, lines, sentinel =>
    let step : String × List String :=
      match lines with
      | [] => ("", [])
      | l :: rest => (l ++ "\n", rest)
    if step.1 = sentinel ++ "\n" then some (Except.ok (), step.2)
    else readUntilLine fuel step.2 sentinel

/-- Outcomes of the fallible operations performed by
`perform_benchmark_scenario` (benchmark.rs lines 188-219), in source order:
spawning the synthetic_load child, the `set-memory-size` write, the first
`read_until_line("Done")`, the `fill-random` write, the second
`read_until_line("Done")`, each `perform_benchmark_iteration` call, and the
final `exit` write.  `true` means the operation returned `Ok`. -/
structure ScenarioOps where
  spawnLoadOk : Bool
  writeSetMemorySizeOk : Bool
  readDoneSizeOk : Bool
  writeFillRandomOk : Bool
  readDoneFillOk : Bool
  iterationsOk : List Bool
  writeExitOk : Bool
  deriving Repr, DecidableEq

/-- Model of the iteration loop of `perform_benchmark_scenario` (benchmark.rs
lines 207-211): the first failing `perform_benchmark_iteration` propagates
via `?`; `true` means all iterations succeeded. -/
def runIterations : List Bool → Bool
  | [] => true
  | ok :: rest => ok && runIterations rest

/-- Model of `perform_benchmark_scenario`'s control flow with respect to the
synthetic_load child (benchmark.rs lines 188-219).  Result: whether the
scenario returned `Ok`, paired with the number of `wait()` calls performed on
the synthetic_load child process.  The only `wait` on that child is at line
214, reached solely when every preceding fallible operation succeeded; every
`?` early-return drops the `ChildProcess`, and `impl Drop for ChildProcess`
(lines 140-163) drains the output pipes and prints a message but never calls
`wait`, so failure paths perform zero waits. -/
def performBenchmarkScenario (ops : ScenarioOps) : Bool × ℕ :=
  if !ops.spawnLoadOk then (false, 0)
  else if !ops.writeSetMemorySizeOk then (false, 0)
  else if !ops.readDoneSizeOk then (false, 0)
  else if !ops.writeFillRandomOk then (false, 0)
  else if !ops.readDoneFillOk then (false, 0)
  else if !runIterations ops.iterationsOk then (false, 0)
  else if !ops.writeExitOk then (false, 0)
  else (true, 1)

end ScanmemBench

namespace SyntheticLoad

/-- Model of `State` (synthetic_load.rs lines 40-43): the workload buffer.
Bytes are modelled as ℕ (the claims do not depend on the 8-bit width). -/
structure State where
  memory : List ℕ
  deriving Repr, DecidableEq

/-- Model of the parsed `Commands` enum (synthetic_load.rs lines 15-38). -/
inductive Command where
  | exit : Command
  | setMemorySize (newMemorySize : ℕ) : Command
  | fill (value : ℕ) : Command
  | fillRandom (seed : ℕ) : Command
  | setAddress (address : ℕ) (value : ℕ) : Command
  | info : Command
  deriving Repr, DecidableEq

/-- Model of `set_memory_size` (synthetic_load.rs lines 55-58):
`Vec::resize(new_size, 0)` truncates or zero-pads to the new length
(`shrink_to_fit` is a capacity hint with no observable effect here). -/
def setMemorySize (state : State) (newSize : ℕ) : State :=
  ⟨if newSize ≤ state.memory.length
    then state.memory.take newSize
    else state.memory ++ List.replicate (newSize - state.memory.length) 0⟩

/-- Model of `fill_memory` (synthetic_load.rs lines 60-62): every byte set to
`value`, length unchanged. -/
def fillMemory (state : State) (value : ℕ) : State :=
  ⟨List.replicate state.memory.length value⟩

/-- Model of `fill_memory_random` (synthetic_load.rs lines 64-68).  The
Pcg64Mcg byte stream is abstracted as a parameter `rng : seed → index → byte`;
the claims use only that the buffer is rewritten in place (length unchanged)
deterministically from the seed. -/
def fillMemoryRandom (rng : ℕ → ℕ → ℕ) (state : State) (seed : ℕ) : State :=
  ⟨(List.range state.memory.length).map (rng seed)⟩

/-- Model of `set_address` (synthetic_load.rs lines 70-85).  The buffer's
runtime base address (`as_ptr`) is the parameter `base`; the address check is
`base ≤ address < base + len`.  Returns the new state and the printed
diagnostic lines. -/
def setAddress (base : ℕ) (state : State) (address : ℕ) (value : ℕ) :
    State × List String :=
  if state.memory = [] then
    (state, ["memory empty"])
  else if ¬ (base ≤ address ∧ address < base + state.memory.length) then
    (state, ["address not in range"])
  else
    (⟨state.memory.set (address - base) value⟩, [])

/-- Hexadecimal rendering with the `0x` prefix, modelling Rust's `{:#x}`
format used by `print_info`. -/
def hexStr (n : ℕ) : String :=
  "0x" ++ String.mk (Nat.toDigits 16 n)

/-- Model of `print_info` (synthetic_load.rs lines 87-91): three diagnostic
lines with the buffer's size, start address, and end address. -/
def printInfo (base : ℕ) (state : State) : List String :=
  ["memory size: " ++ hexStr state.memory.length,
   "memory start: " ++ hexStr base,
   "memory end: " ++ hexStr (base + state.memory.length)]

/-- Model of `perform_command` (synthetic_load.rs lines 93-104): dispatch on
the parsed command, returning the new state and the lines it prints.  The
wildcard arm (reached only for `Exit`, which the caller filters out first)
does nothing. -/
def performCommand (base : ℕ) (rng : ℕ → ℕ → ℕ) (state : State) (c : Command) :
    State × List String :=
  match c with
  | .setMemorySize n => (setMemorySize state n, [])
  | .info => (state, printInfo base state)
  | .fill v => (fillMemory state v, [])
  | .fillRandom seed => (fillMemoryRandom rng state seed, [])
  | .setAddress a v => setAddress base state a v
  | .exit => (state, [])

/-- Model of the `Ok(cli)` branch of the main read-eval loop
(synthetic_load.rs lines 119-125): on `Exit` the loop breaks with no output
(`none`); on every other successfully parsed command it calls
`perform_command` and then unconditionally prints `Done`. -/
def mainHandleCommand (base : ℕ) (rng : ℕ → ℕ → ℕ) (state : State) (c : Command) :
    Option (State × List String) :=
  if c = Command.exit then none
  else
    let r := performCommand base rng state c
    some (r.1, r.2 ++ ["Done"])

end SyntheticLoad

namespace ScanmemBench

/-- Unfolding lemma for `sweepVisit` when the loop guard holds: the current
size is visited and the sweep continues at the advanced size. -/
theorem sweepVisit_step {minB maxB stepB : ℕ} {f : ℚ} (fuel s : ℕ)
    (h : minB ≤ s ∧ s ≤ maxB) :
    sweepVisit minB maxB stepB f (fuel + 1) s =
      (s :: (sweepVisit minB maxB stepB f fuel (nextStepSize stepB f s)).1,
       (sweepVisit minB maxB stepB f fuel (nextStepSize stepB f s)).2) := by
  simp [sweepVisit, h]

/-- Unfolding lemma for `sweepVisit` when the loop guard fails: the loop
exits having visited nothing further. -/
theorem sweepVisit_stop {minB maxB stepB : ℕ} {f : ℚ} (fuel s : ℕ)
    (h : ¬ (minB ≤ s ∧ s ≤ maxB)) :
    sweepVisit minB maxB stepB f (fuel + 1) s = ([], true) := by
  simp [sweepVisit, h]

/-- With `stepbytes = 0` and `stepfactor = 1.0` the advance step is the
identity at size 1: `floor((1 + 0) * 1) = 1`. -/
theorem nextStepSize_id_at_one : nextStepSize 0 1 1 = 1 := by
  norm_num [nextStepSize]; decide

/-- C1: the claim says `main` validates progress and raises `ConfigError`
before any scenario when `stepBytes = 0` and `stepFactor = 1.0`.  The source
(benchmark.rs lines 267-293) performs no such validation and has no
`ConfigError` path: with `minbytes = 1, maxbytes = 10, stepbytes = 0,
stepfactor = 1.0` the advance step is the identity, so for every fuel the
sweep loop is still running (`false`) and has already executed one scenario
per fuel step at size 1 — scenarios do run, no error is raised, and the
sweep never terminates. -/
theorem sweep_zero_step_never_terminates :
    ∀ fuel : ℕ, sweepVisit 1 10 0 1 fuel 1 = (List.replicate fuel 1, false) := by
  intro fuel
  induction fuel with
  | zero => rfl
  | succ n ih =>
    rw [sweepVisit_step n 1 (by norm_num), nextStepSize_id_at_one, ih,
      List.replicate_succ]

/-- C2: the claim says `read_until_line` returns `IOError` when the child's
stdout reaches end-of-stream before the sentinel.  In the source
(benchmark.rs lines 115-126) `read_line` reports end-of-stream as `Ok(0)`
with an empty buffer, which never equals `"Done\n"`, so the loop body runs
again forever: on an exhausted stream the function neither returns `Ok` nor
`Err` for any fuel — it loops forever instead of failing with `IOError`. -/
theorem read_until_line_loops_at_eof :
    ∀ fuel : ℕ, readUntilLine fuel [] "Done" = none := by
  intro fuel
  induction fuel with
  | zero => rfl
  | succ n ih => simpa [readUntilLine] using ih

/-- C3: the claim says the computed standard deviation equals the population
standard deviation `sqrt((1/n) * Σ (x_i − mean)^2)`.  On the sample `[1, 3]`
with its arithmetic mean `2`, `compute_standard_deviation` (benchmark.rs
lines 240-245) folds `acc + (e − mean)` starting from the raw first element
and squares the resulting sum, yielding `sqrt((1/2) * 2^2) = sqrt 2`, whereas
the population standard deviation is `sqrt 1 = 1`: the two differ. -/
theorem compute_standard_deviation_not_population :
    Real.sqrt (((computeStandardDeviationSq [1, 3] 2).getD 0 : ℚ) : ℝ)
      ≠ Real.sqrt ((specPopulationVariance [1, 3] 2 : ℚ) : ℝ) := by
  have h1 : computeStandardDeviationSq [1, 3] 2 = some 2 := by
    norm_num [computeStandardDeviationSq, computeStandardDeviationSum]
  have h2 : specPopulationVariance [1, 3] 2 = 1 := by
    norm_num [specPopulationVariance]
  rw [h1, h2]
  simp only [Option.getD_some]
  push_cast
  rw [Real.sqrt_one]
  intro h
  have hs : Real.sqrt 2 ^ 2 = 2 := Real.sq_sqrt (by norm_num)
  rw [h] at hs
  norm_num at hs

/-- C4: the claim says aggregates are computed only for non-empty duration
sequences and a failed scenario never reaches the aggregation code.  In the
source (benchmark.rs lines 274-286) a failed scenario leaves the `Default`
timing — an empty duration list — and the aggregate block then runs
unconditionally, where `max_by(..).unwrap()` panics on the empty sequence
(modelled as `none`): aggregation is invoked on the empty sequence and the
whole run aborts. -/
theorem main_aggregates_empty_panics : mainLoopAggregates none = none := by rfl

/-- C5: the claim says every exit path of a scenario reaps the
synthetic_load child by a blocking `wait` exactly once.  In the source
(benchmark.rs lines 188-219) the only `wait` on that child is on the fully
successful path (line 214); `impl Drop for ChildProcess` (lines 140-163)
never calls `wait`, so a failure in setup — here the `set-memory-size` write
fails — returns early with zero waits on the load child and no teardown,
while the all-success path waits exactly once. -/
theorem scenario_setup_failure_zero_waits :
    performBenchmarkScenario ⟨true, false, true, true, true, [], true⟩ = (false, 0)
    ∧ performBenchmarkScenario ⟨true, true, true, true, true, [true, true], true⟩ = (true, 1) := by
  decide

/-- C6: the sweep starts at `minbytes`, advances by
`next = floor((size + stepbytes) * stepfactor)`, and exits the first time the
guard `minbytes ≤ size ≤ maxbytes` fails: with `minbytes = 1, maxbytes = 10,
stepbytes = 3, stepfactor = 1.0` it runs scenarios at exactly the sizes
`[1, 4, 7, 10]` in that order and terminates, the next size 13 lying outside
the inclusive range. -/
theorem sweep_visits_sizes_1_4_7_10 :
    sweepVisit 1 10 3 1 20 1 = ([1, 4, 7, 10], true)
    ∧ nextStepSize 3 1 10 = 13 ∧ ¬ (1 ≤ 13 ∧ 13 ≤ 10) := by
  have n1 : nextStepSize 3 1 1 = 4 := by norm_num [nextStepSize]; decide
  have n4 : nextStepSize 3 1 4 = 7 := by norm_num [nextStepSize]; decide
  have n7 : nextStepSize 3 1 7 = 10 := by norm_num [nextStepSize]; decide
  have n10 : nextStepSize 3 1 10 = 13 := by norm_num [nextStepSize]; decide
  refine ⟨?_, n10, by norm_num⟩
  rw [show (20 : ℕ) = 19 + 1 from rfl, sweepVisit_step 19 1 (by norm_num), n1,
      show (19 : ℕ) = 18 + 1 from rfl, sweepVisit_step 18 4 (by norm_num), n4,
      show (18 : ℕ) = 17 + 1 from rfl, sweepVisit_step 17 7 (by norm_num), n7,
      show (17 : ℕ) = 16 + 1 from rfl, sweepVisit_step 16 10 (by norm_num), n10,
      show (16 : ℕ) = 15 + 1 from rfl, sweepVisit_stop 15 13 (by norm_num)]

/-- C7 counterexample: the claim says the median follows the lower-middle
convention with `median({1,2,3,4}) = 2`.  `compute_median` (benchmark.rs
lines 234-238) sorts ascending and indexes at `len / 2 = 2` (0-based), which
on `[1, 2, 3, 4]` is the upper-middle element 3, not 2. -/
theorem compute_median_even_not_two :
    computeMedian [1, 2, 3, 4] = some 3 ∧ (3 : ℚ) ≠ 2 := by
  exact ⟨by decide, by norm_num⟩

/-- C7 amended: `compute_median` sorts ascending and returns the element at
0-based index `count / 2` — the exact middle for odd count and the
*upper*-middle for even count — so `median({1,2,3,4}) = 3`,
`median({1,2,3}) = 2`, and `median({5}) = 5`. -/
theorem compute_median_upper_middle :
    computeMedian [1, 2, 3, 4] = some 3
    ∧ computeMedian [1, 2, 3] = some 2
    ∧ computeMedian [5] = some 5 := by
  exact ⟨by decide, by decide, by decide⟩

/-- C8: the claim says a single-element sample `{d}` with `d > 0` has
`min = max = mean = median = d` and `stddev = 0`.  For `d = 2` the source's
aggregate block (benchmark.rs lines 282-286) indeed yields
`min = max = mean = median = 2`, but `compute_standard_deviation` passes
`(1/1) * 2^2 = 4` to `f64::sqrt`, so the reported standard deviation is
`sqrt 4 = 2 ≠ 0`, not 0. -/
theorem single_element_stddev_not_zero :
    mainComputeAggregates [2] = some ⟨2, 2, 2, 4, 2⟩
    ∧ Real.sqrt ((4 : ℚ) : ℝ) = 2 ∧ (2 : ℝ) ≠ 0 := by
  refine ⟨?_, ?_, by norm_num⟩
  · simp [mainComputeAggregates, listMaxBy, listMinBy,
      computeStandardDeviationSq, computeStandardDeviationSum, computeMedian]
    norm_num
  · have h : ((4 : ℚ) : ℝ) = (2 : ℝ) ^ 2 := by norm_num
    rw [h, Real.sqrt_sq (by norm_num)]

end ScanmemBench

namespace SyntheticLoad

/-- C9 counterexample: the claim says valid `set-address` and `info` commands
emit no `Done` line.  The main loop of synthetic_load.rs (lines 119-125)
prints `Done` unconditionally after every successfully parsed non-exit
command: with a 2-byte buffer at base address 4096, both `info` and an
in-range `set-address 4096 5` end their output with a `Done` line. -/
theorem info_set_address_emit_done :
    (mainHandleCommand 4096 (fun _ _ => 0) ⟨[7, 7]⟩ Command.info).map
        (fun r => r.2.getLast?) = some (some "Done")
    ∧ (mainHandleCommand 4096 (fun _ _ => 0) ⟨[7, 7]⟩ (Command.setAddress 4096 5)).map
        (fun r => r.2.getLast?) = some (some "Done") := by
  decide

/-- C9 amended: every successfully parsed command other than `exit` —
`set-memory-size`, `fill`, `fill-random`, `set-address`, and `info` alike —
completes with a `Done` line as its last output, because the main loop
prints `Done` unconditionally after `perform_command`; only `exit` breaks
the loop without printing `Done`. -/
theorem nonexit_commands_emit_done (base : ℕ) (rng : ℕ → ℕ → ℕ) (s : State)
    (c : Command) (h : c ≠ Command.exit) :
    (mainHandleCommand base rng s c).map (fun r => r.2.getLast?) = some (some "Done") := by
  simp [mainHandleCommand, h]

/-- Witness for `nonexit_commands_emit_done` at `info` on the empty buffer. -/
theorem nonexit_commands_emit_done_witness :
    (mainHandleCommand 0 (fun _ _ => 0) ⟨[]⟩ Command.info).map
      (fun r => r.2.getLast?) = some (some "Done") :=
  nonexit_commands_emit_done 0 (fun _ _ => 0) ⟨[]⟩ Command.info (by decide)

/-- C10: `set_address` (synthetic_load.rs lines 70-85) never changes the
buffer's length; every byte whose position differs from the addressed one is
unchanged; and when the buffer is empty, or the address lies outside
`[base, base + len)`, the entire state is unchanged and only the
corresponding diagnostic line is printed. -/
theorem set_address_frame_effect (base : ℕ) (s : State) (addr v : ℕ) :
    ((setAddress base s addr v).1.memory.length = s.memory.length)
    ∧ (∀ i, i < s.memory.length → base + i ≠ addr →
        (setAddress base s addr v).1.memory.get? i = s.memory.get? i)
    ∧ (s.memory = [] → setAddress base s addr v = (s, ["memory empty"]))
    ∧ (s.memory ≠ [] → ¬ (base ≤ addr ∧ addr < base + s.memory.length) →
        setAddress base s addr v = (s, ["address not in range"])) := by
  refine ⟨?_, ?_, ?_, ?_⟩
  · unfold setAddress
    by_cases he : s.memory = []
    · simp [he]
    · by_cases hr : base ≤ addr ∧ addr < base + s.memory.length
      · simp [he, hr]
      · simp [he, hr]
  · intro i hi hne
    unfold setAddress
    by_cases he : s.memory = []
    · simp [he]
    · by_cases hr : base ≤ addr ∧ addr < base + s.memory.length
      · have hne' : addr - base ≠ i := by omega
        simp [he, hr, List.getElem?_set_ne hne']
      · simp [he, hr]
  · intro h
    simp [setAddress, h]
  · intro he hr
    simp [setAddress, he, hr]

/-- Witness for `set_address_frame_effect`: a 3-byte buffer at base 10 with
an in-range write at address 11 keeps its length and its byte at position 0. -/
theorem set_address_frame_effect_witness :
    (setAddress 10 ⟨[1, 2, 3]⟩ 11 9).1.memory.length = 3
    ∧ (setAddress 10 ⟨[1, 2, 3]⟩ 11 9).1.memory.get? 0 = some 1 :=
  ⟨(set_address_frame_effect 10 ⟨[1, 2, 3]⟩ 11 9).1,
   ((set_address_frame_effect 10 ⟨[1, 2, 3]⟩ 11 9).2.1 0 (by norm_num)
     (by norm_num)).trans (by rfl)⟩

end SyntheticLoad
